import Mathlib

/-!
Shallow embedding of the Solana yield-farming analytics pipeline
(`src/collector.py`, `src/processor.py`, `src/models.py`).

Python floats are modelled as rationals (`ℚ`); the only irrational
operation in the pipeline, `statistics.stdev`, is modelled with
`Real.sqrt` over the rational sample variance.  Python dictionaries
with known key sets are modelled as structures; `dict.get(k, d)`
becomes `Option.getD`.  Functions that can raise are modelled with
`Option`/`Except`.  Timestamps (`last_updated`) and the `metadata`
dictionary are not modelled: no verified property reads them.
-/

/-- Python's substring test `needle in hay` on lists of characters. -/
def listContainsSub (needle : List Char) : List Char → Bool
  | [] => needle.isEmpty
  | c :: rest => needle.isPrefixOf (c :: rest) || listContainsSub needle rest

/-- Python's substring test `needle in hay` on strings. -/
def strContains (hay needle : String) : Bool :=
  listContainsSub needle.data hay.data

/-- Python's `str.lower()`: `Char.toLower` applied to every character
(the character-list form of `String.toLower`). -/
def strToLower (s : String) : String :=
  String.mk (s.data.map Char.toLower)

/-- Canonical opportunity record (`YieldOpportunity` dataclass in
`src/collector.py`).  The `risks` dictionary is flattened into its two
keys `il_risk` and `audit_score`; `metadata` and `last_updated` are
omitted (unused by the verified properties). -/
structure YieldOpportunity where
  protocol : String
  pool_id : String
  pair : String
  apy : ℚ
  tvl : ℚ
  category : String
  tokens : List String
  il_risk : String
  audit_score : ℚ
  deriving Repr, DecidableEq

/-- Raw DeFiLlama pool record as read by
`ComprehensiveSolanaCollector._create_opportunity`: every field access
in the source goes through `pool.get(k, default)`, so each field is
optional here and the defaults are applied in the function. -/
structure RawPool where
  apy : Option ℚ
  tvlUsd : Option ℚ
  project : Option String
  symbol : Option String
  pool : Option String
  underlyingTokens : List String
  ilRisk : Option String
  deriving Repr, DecidableEq

/-- `ComprehensiveSolanaCollector._categorize_protocol`. -/
def categorize_protocol (protocol : String) (_symbol : String) : String :=
  let protocol_lower := strToLower protocol
  if ["raydium", "orca", "serum", "aldrin"].any (fun p => strContains protocol_lower p) then
    "dex"
  else if ["solend", "mango", "port", "tulip"].any (fun p => strContains protocol_lower p) then
    "lending"
  else if ["marinade", "lido", "socean"].any (fun p => strContains protocol_lower p) then
    "liquid_staking"
  else if ["drift", "zeta", "friktion"].any (fun p => strContains protocol_lower p) then
    "derivatives"
  else if ["saber", "sunny", "quarry"].any (fun p => strContains protocol_lower p) then
    "farm"
  else
    "other"

/-- `ComprehensiveSolanaCollector._get_audit_score`. -/
def get_audit_score (protocol : String) : ℚ :=
  let protocol_lower := strToLower protocol
  if ["orca", "raydium", "solend", "marinade"].any (fun p => strContains protocol_lower p) then
    0.9
  else if ["mango", "port", "drift", "saber"].any (fun p => strContains protocol_lower p) then
    0.7
  else
    0.5

/-- `ComprehensiveSolanaCollector._create_opportunity`: unit conversion
of the raw yield (`if apy > 5: apy = apy / 100`), validity gate
(`apy <= 0 or tvl <= 0` rejects), then construction of the canonical
record. -/
def create_opportunity (pool : RawPool) : Option YieldOpportunity :=
  let apy0 := pool.apy.getD 0
  let tvl := pool.tvlUsd.getD 0
  -- "Convert percentage to decimal if needed"
  let apy := if 5 < apy0 then apy0 / 100 else apy0
  if apy ≤ 0 ∨ tvl ≤ 0 then none
  else
    let protocol := pool.project.getD "Unknown"
    some { protocol := protocol
           pool_id := pool.pool.getD ""
           pair := pool.symbol.getD ""
           apy := apy
           tvl := tvl
           category := categorize_protocol protocol (pool.symbol.getD "")
           tokens := pool.underlyingTokens
           il_risk := pool.ilRisk.getD "no"
           audit_score := get_audit_score protocol }

/-- Threshold policy held by `YieldDataProcessor` (`src/processor.py`):
`__init__` takes `max_apy_threshold` (default 50) and fixes
`min_apy_threshold = 0.1`, `min_tvl_threshold = 10000`. -/
structure YieldDataProcessor where
  max_apy_threshold : ℚ
  min_apy_threshold : ℚ
  min_tvl_threshold : ℚ
  deriving Repr, DecidableEq

/-- `YieldDataProcessor.__init__`. -/
def mkProcessor (max_apy_threshold : ℚ) : YieldDataProcessor :=
  { max_apy_threshold := max_apy_threshold
    min_apy_threshold := 0.1
    min_tvl_threshold := 10000 }

/-- The in-place unit conversion at the top of `remove_outliers`:
`opp.apy = opp.apy * 100 if opp.apy < 1 else opp.apy`. -/
def convertApy (o : YieldOpportunity) : YieldOpportunity :=
  if o.apy < 1 then { o with apy := o.apy * 100 } else o

/-- The hard-threshold test of `remove_outliers` (the `basic_filtered`
comprehension). -/
def hardOk (p : YieldDataProcessor) (o : YieldOpportunity) : Bool :=
  decide (p.min_apy_threshold ≤ o.apy ∧ o.apy ≤ p.max_apy_threshold ∧
          p.min_tvl_threshold ≤ o.tvl)

/-- `statistics.mean` (only applied to non-empty samples in the source). -/
def listMean (xs : List ℚ) : ℚ := xs.sum / xs.length

/-- The rational sample variance underlying `statistics.stdev`
(denominator `n - 1`). -/
def sampleVariance (xs : List ℚ) : ℚ :=
  ((xs.map (fun x => (x - listMean xs) ^ 2)).sum) / ((xs.length : ℚ) - 1)

/-- `statistics.stdev` (defined for samples of at least two points;
the source catches the exception raised otherwise). -/
noncomputable def sampleStdev (xs : List ℚ) : ℝ :=
  Real.sqrt (sampleVariance xs)

open Classical in
/-- The statistical pass of `remove_outliers`: bounds
`upper = min(avg + 1.5*std, max_apy)`, `lower = max(min_apy, avg - 1.5*std)`
and the four-conjunct `all([...])` retention test. -/
noncomputable def statFiltered (p : YieldDataProcessor)
    (basic : List YieldOpportunity) : List YieldOpportunity :=
  let apys := basic.map (·.apy)
  let avg : ℝ := (listMean apys : ℚ)
  let std : ℝ := sampleStdev apys
  let upper : ℝ := min (avg + 1.5 * std) (p.max_apy_threshold : ℝ)
  let lower : ℝ := max ((p.min_apy_threshold : ℚ) : ℝ) (avg - 1.5 * std)
  basic.filter (fun o => decide
    (lower ≤ (o.apy : ℝ) ∧ (o.apy : ℝ) ≤ upper ∧
     o.apy ≤ p.max_apy_threshold ∧ p.min_apy_threshold ≤ o.apy ∧
     p.min_tvl_threshold ≤ o.tvl))

/-- `YieldDataProcessor.remove_outliers`.  The Python function both
mutates its argument (the conversion loop assigns `opp.apy` in place)
and returns a filtered list of the same objects, so the model returns a
pair: `.1` is the state of the input list after the call and `.2` is
the return value.  `statistics.stdev` raises `StatisticsError` on
fewer than two data points and the bare `except` then returns
`basic_filtered`; that is the `length < 2` branch here (no other
statement in the `try` block can raise). -/
noncomputable def remove_outliers (p : YieldDataProcessor)
    (opportunities : List YieldOpportunity) :
    List YieldOpportunity × List YieldOpportunity :=
  if opportunities.isEmpty then (opportunities, [])
  else
    let converted := opportunities.map convertApy
    let basic_filtered := converted.filter (hardOk p)
    if basic_filtered.isEmpty then (converted, [])
    else if basic_filtered.length < 2 then (converted, basic_filtered)
    else (converted, statFiltered p basic_filtered)

/-- Result record of `RiskScorer.calculate_risk_score` (`src/models.py`):
the returned dictionary, with the nested `breakdown` dictionary
flattened into its three keys. -/
structure RiskAssessment where
  overall : ℚ
  risk_level : String
  tvl_score : ℚ
  protocol_score : ℚ
  apy_risk : ℚ
  deriving Repr, DecidableEq

/-- The protocol reputation table of `RiskScorer._get_protocol_score`,
in Python dictionary insertion order (iteration order of `.items()`). -/
def protocolScores : List (String × ℚ) :=
  [("raydium", 0.95), ("orca", 0.95), ("solend", 0.9), ("marinade", 0.9),
   ("jito-liquid-staking", 0.9), ("mango", 0.8), ("port", 0.8),
   ("drift", 0.75), ("saber", 0.75), ("sunny", 0.7), ("kamino", 0.8),
   ("marginfi", 0.75)]

/-- `RiskScorer._get_protocol_score`: first table entry whose key is a
substring of the lower-cased protocol name, default 0.5. -/
def get_protocol_score (protocol : String) : ℚ :=
  let protocol_lower := strToLower protocol
  match protocolScores.find? (fun kv => strContains protocol_lower kv.1) with
  | some kv => kv.2
  | none => 0.5

/-- `RiskScorer._get_risk_level`. -/
def get_risk_level (score : ℚ) : String :=
  if 0.8 ≤ score then "Low Risk"
  else if 0.6 ≤ score then "Medium Risk"
  else if 0.4 ≤ score then "High Risk"
  else "Very High Risk"

/-- `RiskScorer.calculate_risk_score`.  The `raise ValueError` is
modelled as `Except.error` with the source's message. -/
def calculate_risk_score (protocol : String) (tvl apy : ℚ)
    (apy_mean_30d : Option ℚ) : Except String RiskAssessment :=
  if tvl < 0 ∨ apy < 0 then Except.error "TVL and APY must be non-negative"
  else
    let tvl_score := min 1 (tvl / 10000000)
    let protocol_score := get_protocol_score protocol
    let effective_apy := apy_mean_30d.getD apy
    let apy_risk : ℚ :=
      if effective_apy < 0.5 then 1
      else if effective_apy < 5 then 0.9
      else if effective_apy < 50 then 0.7
      else if effective_apy < 200 then 0.5
      else if effective_apy < 500 then 0.3
      else if effective_apy < 2000 then 0.2
      else 0.1
    -- weights = {'tvl': 0.3, 'protocol': 0.4, 'apy': 0.3}
    let overall_score := tvl_score * 0.3 + protocol_score * 0.4 + apy_risk * 0.3
    Except.ok { overall := overall_score
                risk_level := get_risk_level overall_score
                tvl_score := tvl_score
                protocol_score := protocol_score
                apy_risk := apy_risk }

/-- Candidate record consumed by
`PortfolioOptimizer.find_optimal_allocation`: a dictionary read with
`o['protocol']`, `o['pair']`, `o['apy']` (mandatory keys) and
`o.get('audit_score', 0.5)`, `o.get('risk_level')` (optional keys). -/
structure CandidateRecord where
  protocol : String
  pair : String
  apy : ℚ
  audit_score : Option ℚ
  risk_level : Option String
  deriving Repr, DecidableEq

/-- Allocation dictionary produced by
`PortfolioOptimizer.find_optimal_allocation`. -/
structure AllocationEntry where
  protocol : String
  pair : String
  allocation_percentage : ℚ
  allocation_amount : ℚ
  expected_apy : ℚ
  risk_level : String
  deriving Repr, DecidableEq

/-- The `risk_filters.get(risk_tolerance, ["Low Risk", "Medium Risk"])`
lookup of `find_optimal_allocation`: the three dictionary keys, with
the `.get` default for every other tolerance string. -/
def allowedRisks (risk_tolerance : String) : List String :=
  if risk_tolerance = "Conservative" then ["Low Risk"]
  else if risk_tolerance = "Moderate" then ["Low Risk", "Medium Risk"]
  else if risk_tolerance = "Aggressive" then ["Low Risk", "Medium Risk", "High Risk"]
  else ["Low Risk", "Medium Risk"]

/-- `o.get('risk_level') in allowed_risks` (a missing key gives `None`,
which is never in a list of strings). -/
def riskAllowed (allowed : List String) (o : CandidateRecord) : Bool :=
  match o.risk_level with
  | some r => allowed.contains r
  | none => false

/-- `o['apy'] * o.get('audit_score', 0.5)`. -/
def rawWeightScore (o : CandidateRecord) : ℚ :=
  o.apy * o.audit_score.getD 0.5

/-- The allocation-building loop of `find_optimal_allocation`:
`for i, opp in enumerate(filtered_opps[:5])`, keeping an entry only
when `allocation_amount > 0`. -/
def mkAllocations (filtered_opps : List CandidateRecord)
    (investment total_score : ℚ) : List AllocationEntry :=
  (filtered_opps.take 5).filterMap (fun opp =>
    let weight := rawWeightScore opp / total_score
    let allocation_amount := investment * weight
    if 0 < allocation_amount then
      some { protocol := opp.protocol
             pair := opp.pair
             allocation_percentage := weight * 100
             allocation_amount := allocation_amount
             expected_apy := opp.apy
             risk_level := opp.risk_level.getD "Medium Risk" }
    else none)

/-- The trailing renormalization of `find_optimal_allocation`
(`if allocations: ... if total_allocated > 0: ...`); each entry's
percentage and amount are rewritten from its pre-pass amount. -/
def normalizeAllocations (allocations : List AllocationEntry)
    (investment : ℚ) : List AllocationEntry :=
  if allocations.isEmpty then allocations
  else
    let total_allocated := (allocations.map AllocationEntry.allocation_amount).sum
    if 0 < total_allocated then
      allocations.map (fun a =>
        { a with
          allocation_percentage := a.allocation_amount / total_allocated * 100
          allocation_amount := a.allocation_amount / total_allocated * investment })
    else allocations

/-- `PortfolioOptimizer.find_optimal_allocation`.  `sum(scores) or 1.0`
is the zero-guard: a zero sum (the only falsy rational) is replaced by
1. -/
def find_optimal_allocation (opportunities : List CandidateRecord)
    (investment : ℚ) (risk_tolerance : String) : List AllocationEntry :=
  let filtered_opps := opportunities.filter (riskAllowed (allowedRisks risk_tolerance))
  if filtered_opps.isEmpty then []
  else
    let scores := filtered_opps.map rawWeightScore
    let total_score := if scores.sum = 0 then 1 else scores.sum
    normalizeAllocations (mkAllocations filtered_opps investment total_score) investment

/-- The apy-risk bucket table as the specification states it
(percentage-point buckets over the effective APY); kept separate from
`calculate_risk_score` so the code/spec agreement is a theorem. -/
def spec_apy_risk (effective_apy : ℚ) : ℚ :=
  if effective_apy < 0.5 then 1
  else if effective_apy < 5 then 0.9
  else if effective_apy < 50 then 0.7
  else if effective_apy < 200 then 0.5
  else if effective_apy < 500 then 0.3
  else if effective_apy < 2000 then 0.2
  else 0.1

/-- The risk-level thresholds as the specification states them; kept
separate from `get_risk_level` so the code/spec agreement is a
theorem. -/
def spec_risk_level (overall : ℚ) : String :=
  if 0.8 ≤ overall then "Low Risk"
  else if 0.6 ≤ overall then "Medium Risk"
  else if 0.4 ≤ overall then "High Risk"
  else "Very High Risk"

/-- A raw pool whose yield figure 2 is at most 5 (a decimal fraction
according to the spec's reading). -/
def poolFraction : RawPool :=
  { apy := some 2, tvlUsd := some 5000, project := none,
    symbol := none, pool := none, underlyingTokens := [], ilRisk := none }

/-- A raw pool whose yield figure 100 is greater than 5 (already a
percentage according to the spec's reading). -/
def poolPercent : RawPool :=
  { apy := some 100, tvlUsd := some 5000, project := none,
    symbol := none, pool := none, underlyingTokens := [], ilRisk := none }

/-- Every element of the list returned by `remove_outliers` passes the
hard-threshold test: both the fallback branch (a filter by `hardOk`)
and the statistical branch (whose `all([...])` repeats the three
threshold conjuncts) guarantee it. -/
theorem hardOk_of_mem_output (p : YieldDataProcessor) (l : List YieldOpportunity)
    (o : YieldOpportunity) (h : o ∈ (remove_outliers p l).2) : hardOk p o = true := by
  simp only [remove_outliers] at h
  split at h
  · simp at h
  · split at h
    · simp at h
    · split at h
      · exact (List.mem_filter.mp h).2
      · simp only [statFiltered] at h
        have h2 := (List.mem_filter.mp h).2
        have h3 := of_decide_eq_true h2
        unfold hardOk
        rw [decide_eq_true_iff]
        exact ⟨h3.2.2.2.1, h3.2.2.1, h3.2.2.2.2⟩

/-- Every entry kept by the allocation-building loop has a strictly
positive amount (the loop's `allocation_amount > 0` guard). -/
theorem mem_mkAllocations_pos {f : List CandidateRecord} {inv t : ℚ}
    {a : AllocationEntry} (h : a ∈ mkAllocations f inv t) :
    0 < a.allocation_amount := by
  simp only [mkAllocations, List.mem_filterMap] at h
  obtain ⟨opp, -, hopp⟩ := h
  split at hopp
  · cases hopp; assumption
  · exact absurd hopp (by simp)

/-- Summing `x / t * c` over a list factors through the list's sum. -/
theorem sum_map_div_mul (l : List ℚ) (t c : ℚ) :
    (l.map (fun x => x / t * c)).sum = l.sum / t * c := by
  induction l with
  | nil => simp
  | cons x xs ih => simp [ih, add_div, add_mul]

/-- The renormalization pass: when every entry has positive amount and
the list is non-empty, the rewritten amounts sum to the investment and
the rewritten percentages sum to 100. -/
theorem normalizeAllocations_sums (A : List AllocationEntry) (inv : ℚ)
    (hA : A ≠ []) (hpos : ∀ a ∈ A, 0 < a.allocation_amount) :
    ((normalizeAllocations A inv).map AllocationEntry.allocation_amount).sum = inv ∧
    ((normalizeAllocations A inv).map AllocationEntry.allocation_percentage).sum = 100 := by
  have hT : 0 < (A.map AllocationEntry.allocation_amount).sum := by
    apply List.sum_pos
    · intro x hx
      obtain ⟨a, ha, rfl⟩ := List.mem_map.mp hx
      exact hpos a ha
    · simpa using hA
  have hTne : (A.map AllocationEntry.allocation_amount).sum ≠ 0 := ne_of_gt hT
  unfold normalizeAllocations
  rw [if_neg (by simpa [List.isEmpty_iff] using hA), if_pos hT]
  constructor
  · rw [List.map_map]
    have : (AllocationEntry.allocation_amount ∘ fun a =>
        { a with
          allocation_percentage :=
            a.allocation_amount / (A.map AllocationEntry.allocation_amount).sum * 100
          allocation_amount :=
            a.allocation_amount / (A.map AllocationEntry.allocation_amount).sum * inv })
        = (fun x => x / (A.map AllocationEntry.allocation_amount).sum * inv) ∘
            AllocationEntry.allocation_amount := rfl
    rw [this, ← List.map_map, sum_map_div_mul, div_self hTne, one_mul]
  · rw [List.map_map]
    have : (AllocationEntry.allocation_percentage ∘ fun a =>
        { a with
          allocation_percentage :=
            a.allocation_amount / (A.map AllocationEntry.allocation_amount).sum * 100
          allocation_amount :=
            a.allocation_amount / (A.map AllocationEntry.allocation_amount).sum * inv })
        = (fun x => x / (A.map AllocationEntry.allocation_amount).sum * 100) ∘
            AllocationEntry.allocation_amount := rfl
    rw [this, ← List.map_map, sum_map_div_mul, div_self hTne, one_mul]

/-- C1: whenever `find_optimal_allocation` returns a non-empty list —
for every candidate list, every positive investment and every
risk-tolerance string — the returned `allocation_amount` values sum
exactly to the investment and the `allocation_percentage` values sum
exactly to 100 (exact in the rational model, hence within
floating-point tolerance in the source). -/
theorem allocator_sums_to_investment (opps : List CandidateRecord)
    (investment : ℚ) (rt : String) (hpos : 0 < investment)
    (hne : find_optimal_allocation opps investment rt ≠ []) :
    ((find_optimal_allocation opps investment rt).map
        AllocationEntry.allocation_amount).sum = investment ∧
    ((find_optimal_allocation opps investment rt).map
        AllocationEntry.allocation_percentage).sum = 100 := by
  cases hFe : (opps.filter (riskAllowed (allowedRisks rt))).isEmpty with
  | true =>
      exfalso
      apply hne
      simp only [find_optimal_allocation, hFe, if_true]
  | false =>
      have hres : find_optimal_allocation opps investment rt =
          normalizeAllocations
            (mkAllocations (opps.filter (riskAllowed (allowedRisks rt))) investment
              (if ((opps.filter (riskAllowed (allowedRisks rt))).map rawWeightScore).sum = 0
               then 1
               else ((opps.filter (riskAllowed (allowedRisks rt))).map rawWeightScore).sum))
            investment := by
        simp only [find_optimal_allocation, hFe, Bool.false_eq_true, if_false]
      rw [hres] at hne ⊢
      refine normalizeAllocations_sums _ _ ?_ ?_
      · intro hAnil
        apply hne
        rw [hAnil]
        rfl
      · intro a ha
        exact mem_mkAllocations_pos ha

/-- C1 witness: a single Low-Risk candidate, investment 10000,
tolerance Conservative. -/
theorem allocator_sums_to_investment_witness :
    ((find_optimal_allocation
        [{ protocol := "marinade", pair := "mSOL-SOL", apy := 5,
           audit_score := some (9/10), risk_level := some "Low Risk" }]
        10000 "Conservative").map AllocationEntry.allocation_amount).sum = 10000 ∧
    ((find_optimal_allocation
        [{ protocol := "marinade", pair := "mSOL-SOL", apy := 5,
           audit_score := some (9/10), risk_level := some "Low Risk" }]
        10000 "Conservative").map AllocationEntry.allocation_percentage).sum = 100 :=
  allocator_sums_to_investment _ 10000 "Conservative" (by norm_num) (by
    have hr : riskAllowed (allowedRisks "Conservative")
        { protocol := "marinade", pair := "mSOL-SOL", apy := 5,
          audit_score := some (9/10), risk_level := some "Low Risk" } = true := rfl
    norm_num [find_optimal_allocation, hr, mkAllocations, normalizeAllocations,
      rawWeightScore, List.filterMap, List.filter])

/-- C2 counterexample: the claim says the normalizer multiplies raw
yields ≤ 5 by 100 and leaves raw yields > 5 unchanged; on raw yield 2
the code keeps 2 (not 200), and on raw yield 100 the code produces 1
(not 100), because `_create_opportunity` divides by 100 when the raw
yield exceeds 5 and otherwise leaves it alone. -/
theorem collector_unit_conversion_counterexample :
    ((create_opportunity poolFraction).map YieldOpportunity.apy = some 2 ∧
      (2 : ℚ) ≠ 2 * 100) ∧
    ((create_opportunity poolPercent).map YieldOpportunity.apy = some 1 ∧
      (1 : ℚ) ≠ 100) := by
  refine ⟨⟨?_, by norm_num⟩, ?_, by norm_num⟩
  · norm_num [create_opportunity, poolFraction]
  · norm_num [create_opportunity, poolPercent]

/-- C2 (amended): the collector's `_create_opportunity` divides raw
yields > 5 by 100 (percentage → decimal) and keeps raw yields ≤ 5
unchanged; the processor's `remove_outliers` then multiplies an apy
< 1 by 100 and keeps an apy ≥ 1 unchanged before its filters run, so
the outlier filter receives that converted representation (not the
spec's single percentage-point one). -/
theorem collector_unit_conversion_amended :
    (∀ (pool : RawPool) (o : YieldOpportunity), create_opportunity pool = some o →
        o.apy = (if 5 < pool.apy.getD 0 then pool.apy.getD 0 / 100
                 else pool.apy.getD 0)) ∧
    (∀ o : YieldOpportunity,
        (convertApy o).apy = (if o.apy < 1 then o.apy * 100 else o.apy)) := by
  constructor
  · intro pool o h
    simp only [create_opportunity] at h
    split at h
    next hc =>
      rw [if_pos hc]
      split at h
      · exact absurd h (by simp)
      · injection h with h2
        rw [← h2]
    next hc =>
      rw [if_neg hc]
      split at h
      · exact absurd h (by simp)
      · injection h with h2
        rw [← h2]
  · intro o
    by_cases hc : o.apy < 1 <;> simp [convertApy, hc]

/-- C2 witness: the amended conversion rule evaluated on the raw pool
with yield figure 2. -/
theorem collector_unit_conversion_amended_witness :
    ({ protocol := "Unknown", pool_id := "", pair := "", apy := 2, tvl := 5000,
       category := "other", tokens := [], il_risk := "no",
       audit_score := 0.5 } : YieldOpportunity).apy =
    (if 5 < poolFraction.apy.getD 0 then poolFraction.apy.getD 0 / 100
     else poolFraction.apy.getD 0) :=
  collector_unit_conversion_amended.1 poolFraction _ (by
    norm_num [create_opportunity, poolFraction,
      show categorize_protocol "Unknown" "" = "other" from rfl,
      show get_audit_score "Unknown" = 0.5 from rfl])

/-- C3 counterexample: with the unrecognized tolerance "Bogus" the
allocator does not fail — it allocates to a Medium-Risk candidate,
behaving exactly like the "Moderate" default set. -/
theorem allocator_unrecognized_tolerance_counterexample :
    find_optimal_allocation
        [{ protocol := "mango", pair := "MNGO-USDC", apy := 10,
           audit_score := some (4/5), risk_level := some "Medium Risk" }]
        1000 "Bogus" ≠ [] ∧
    find_optimal_allocation
        [{ protocol := "mango", pair := "MNGO-USDC", apy := 10,
           audit_score := some (4/5), risk_level := some "Medium Risk" }]
        1000 "Bogus" =
      find_optimal_allocation
        [{ protocol := "mango", pair := "MNGO-USDC", apy := 10,
           audit_score := some (4/5), risk_level := some "Medium Risk" }]
        1000 "Moderate" := by
  constructor
  · have hr : riskAllowed (allowedRisks "Bogus")
        { protocol := "mango", pair := "MNGO-USDC", apy := 10,
          audit_score := some (4/5), risk_level := some "Medium Risk" } = true := rfl
    norm_num [find_optimal_allocation, hr, mkAllocations, normalizeAllocations,
      rawWeightScore, List.filterMap, List.filter]
  · have h1 : allowedRisks "Bogus" = allowedRisks "Moderate" := rfl
    simp only [find_optimal_allocation, h1]

/-- C3 (amended): `find_optimal_allocation` never fails on an
unrecognized risk-tolerance string; it substitutes the dictionary
`.get` default `["Low Risk", "Medium Risk"]` — the Moderate set — and
proceeds, so its behavior on any tolerance outside
Conservative/Moderate/Aggressive coincides with "Moderate". -/
theorem allocator_unrecognized_tolerance_defaults
    (opps : List CandidateRecord) (inv : ℚ) (rt : String)
    (h1 : rt ≠ "Conservative") (h2 : rt ≠ "Moderate") (h3 : rt ≠ "Aggressive") :
    find_optimal_allocation opps inv rt = find_optimal_allocation opps inv "Moderate" := by
  have hA : allowedRisks rt = allowedRisks "Moderate" := by
    simp [allowedRisks, h1, h2, h3]
  simp only [find_optimal_allocation, hA]

/-- C3 witness: the tolerance "Bogus" behaves like "Moderate". -/
theorem allocator_unrecognized_tolerance_defaults_witness :
    find_optimal_allocation
        [{ protocol := "mango", pair := "MNGO-USDC", apy := 10,
           audit_score := some (4/5), risk_level := some "Medium Risk" }]
        1000 "Bogus" =
      find_optimal_allocation
        [{ protocol := "mango", pair := "MNGO-USDC", apy := 10,
           audit_score := some (4/5), risk_level := some "Medium Risk" }]
        1000 "Moderate" :=
  allocator_unrecognized_tolerance_defaults _ 1000 "Bogus"
    (by decide) (by decide) (by decide)

/-- C4 counterexample: `remove_outliers` is not idempotent.  A single
opportunity with apy 0.009 and tvl 20000 is returned with apy 0.9
(the in-place conversion multiplied it by 100 and it passed the hard
thresholds); feeding that output back in multiplies 0.9 by 100 again,
90 fails the 50% cap, and the second application returns the empty
list. -/
theorem remove_outliers_not_idempotent_counterexample :
    (remove_outliers (mkProcessor 50)
        ((remove_outliers (mkProcessor 50)
            [{ protocol := "p", pool_id := "i", pair := "q", apy := 9/1000, tvl := 20000,
               category := "other", tokens := [], il_risk := "no",
               audit_score := 1/2 }]).2)).2
    ≠ (remove_outliers (mkProcessor 50)
        [{ protocol := "p", pool_id := "i", pair := "q", apy := 9/1000, tvl := 20000,
           category := "other", tokens := [], il_risk := "no",
           audit_score := 1/2 }]).2 := by
  have e1 : (remove_outliers (mkProcessor 50)
      [{ protocol := "p", pool_id := "i", pair := "q", apy := 9/1000, tvl := 20000,
         category := "other", tokens := [], il_risk := "no",
         audit_score := 1/2 }]).2 =
      [{ protocol := "p", pool_id := "i", pair := "q", apy := 9/10, tvl := 20000,
         category := "other", tokens := [], il_risk := "no", audit_score := 1/2 }] := by
    norm_num [remove_outliers, convertApy, hardOk, mkProcessor, List.filter,
      decide_eq_true_eq]
  rw [e1]
  have e2 : (remove_outliers (mkProcessor 50)
      [{ protocol := "p", pool_id := "i", pair := "q", apy := 9/10, tvl := 20000,
         category := "other", tokens := [], il_risk := "no",
         audit_score := 1/2 }]).2 = [] := by
    norm_num [remove_outliers, convertApy, hardOk, mkProcessor, List.filter,
      decide_eq_true_eq]
  rw [e2]
  simp

/-- C4 (amended): `remove_outliers` is not idempotent in general — the
unit-conversion step rescales any apy below 1 a second time, and the
statistical pass recomputes narrower bounds on the already-filtered
sample — but it is idempotent on an output all of whose apy values
are at least 1 (so the conversion is the identity) that has fewer
than two elements (so the statistical pass is skipped): reapplying
the filter to such an output returns it unchanged. -/
theorem remove_outliers_idempotent_on_small_converted_outputs
    (p : YieldDataProcessor) (l : List YieldOpportunity)
    (h1 : ∀ o ∈ (remove_outliers p l).2, 1 ≤ o.apy)
    (h2 : (remove_outliers p l).2.length < 2) :
    (remove_outliers p ((remove_outliers p l).2)).2 = (remove_outliers p l).2 := by
  set s := (remove_outliers p l).2 with hs
  have hconv : s.map convertApy = s := by
    have : ∀ o ∈ s, convertApy o = o := by
      intro o ho
      unfold convertApy
      rw [if_neg (not_lt.mpr (h1 o ho))]
    rw [List.map_congr_left this]
    simp
  have hfilter : s.filter (hardOk p) = s :=
    List.filter_eq_self.mpr (fun o ho => hardOk_of_mem_output p l o ho)
  by_cases h0 : s.isEmpty = true
  · rw [List.isEmpty_iff.mp h0]
    simp [remove_outliers]
  · simp only [remove_outliers, if_neg h0, hconv, hfilter]
    rw [if_pos h2]

/-- C4 witness: a singleton with apy 5 (≥ 1) survives unchanged and a
second application returns it unchanged. -/
theorem remove_outliers_idempotent_on_small_converted_outputs_witness :
    (remove_outliers (mkProcessor 50)
        ((remove_outliers (mkProcessor 50)
            [{ protocol := "a", pool_id := "b", pair := "c", apy := 5, tvl := 20000,
               category := "other", tokens := [], il_risk := "no",
               audit_score := 1/2 }]).2)).2
    = (remove_outliers (mkProcessor 50)
        [{ protocol := "a", pool_id := "b", pair := "c", apy := 5, tvl := 20000,
           category := "other", tokens := [], il_risk := "no",
           audit_score := 1/2 }]).2 :=
  remove_outliers_idempotent_on_small_converted_outputs _ _
    (by norm_num [remove_outliers, convertApy, hardOk, mkProcessor, List.filter,
          decide_eq_true_eq])
    (by norm_num [remove_outliers, convertApy, hardOk, mkProcessor, List.filter,
          decide_eq_true_eq])

/-- C5: every opportunity in the output of `remove_outliers` satisfies
the hard policy thresholds — apy within `[min_apy, max_apy]` and tvl
at least `min_tvl` — for every input list, on both the statistical
branch and the degenerate-input fallback branch. -/
theorem remove_outliers_hard_thresholds (p : YieldDataProcessor)
    (l : List YieldOpportunity) (o : YieldOpportunity)
    (h : o ∈ (remove_outliers p l).2) :
    p.min_apy_threshold ≤ o.apy ∧ o.apy ≤ p.max_apy_threshold ∧
    p.min_tvl_threshold ≤ o.tvl := by
  have := hardOk_of_mem_output p l o h
  unfold hardOk at this
  rw [decide_eq_true_iff] at this
  exact this

/-- C5 witness: the thresholds hold for a member of a concrete output. -/
theorem remove_outliers_hard_thresholds_witness :
    (mkProcessor 50).min_apy_threshold ≤
        ({ protocol := "a", pool_id := "b", pair := "c", apy := 5, tvl := 20000,
           category := "other", tokens := [], il_risk := "no",
           audit_score := 1/2 } : YieldOpportunity).apy ∧
      ({ protocol := "a", pool_id := "b", pair := "c", apy := 5, tvl := 20000,
         category := "other", tokens := [], il_risk := "no",
         audit_score := 1/2 } : YieldOpportunity).apy ≤
        (mkProcessor 50).max_apy_threshold ∧
      (mkProcessor 50).min_tvl_threshold ≤
        ({ protocol := "a", pool_id := "b", pair := "c", apy := 5, tvl := 20000,
           category := "other", tokens := [], il_risk := "no",
           audit_score := 1/2 } : YieldOpportunity).tvl :=
  remove_outliers_hard_thresholds (mkProcessor 50)
    [{ protocol := "a", pool_id := "b", pair := "c", apy := 5, tvl := 20000,
       category := "other", tokens := [], il_risk := "no", audit_score := 1/2 }] _
    (by norm_num [remove_outliers, convertApy, hardOk, mkProcessor, List.filter,
          decide_eq_true_eq])

/-- C6 counterexample: `remove_outliers` does mutate its input — after
the call on a single opportunity with apy 0.5, the input list's
element holds apy 50, not 0.5. -/
theorem remove_outliers_mutates_input_counterexample :
    (remove_outliers (mkProcessor 50)
        [{ protocol := "p", pool_id := "i", pair := "q", apy := 1/2, tvl := 20000,
           category := "other", tokens := [], il_risk := "no",
           audit_score := 1/2 }]).1
    ≠ [{ protocol := "p", pool_id := "i", pair := "q", apy := 1/2, tvl := 20000,
         category := "other", tokens := [], il_risk := "no", audit_score := 1/2 }] := by
  have e1 : (remove_outliers (mkProcessor 50)
      [{ protocol := "p", pool_id := "i", pair := "q", apy := 1/2, tvl := 20000,
         category := "other", tokens := [], il_risk := "no",
         audit_score := 1/2 }]).1 =
      [{ protocol := "p", pool_id := "i", pair := "q", apy := 50, tvl := 20000,
         category := "other", tokens := [], il_risk := "no", audit_score := 1/2 }] := by
    norm_num [remove_outliers, convertApy, hardOk, mkProcessor, List.filter,
      decide_eq_true_eq]
  rw [e1]
  norm_num

/-- C6 (amended): `remove_outliers` mutates exactly the apy field of
its input: after the call the input list holds, for each original
opportunity, the same record with apy multiplied by 100 when it was
below 1 and unchanged otherwise; every other field is preserved. -/
theorem remove_outliers_input_mutation (p : YieldDataProcessor)
    (l : List YieldOpportunity) :
    (remove_outliers p l).1 = l.map convertApy ∧
    ∀ o : YieldOpportunity,
      (convertApy o).apy = (if o.apy < 1 then o.apy * 100 else o.apy) ∧
      (convertApy o).protocol = o.protocol ∧ (convertApy o).pool_id = o.pool_id ∧
      (convertApy o).pair = o.pair ∧ (convertApy o).tvl = o.tvl ∧
      (convertApy o).category = o.category ∧ (convertApy o).tokens = o.tokens ∧
      (convertApy o).il_risk = o.il_risk ∧
      (convertApy o).audit_score = o.audit_score := by
  constructor
  · by_cases h0 : l.isEmpty = true
    · rw [List.isEmpty_iff.mp h0]
      simp [remove_outliers]
    · by_cases h1 : ((l.map convertApy).filter (hardOk p)).isEmpty = true
      · simp only [remove_outliers, if_neg h0, if_pos h1]
      · by_cases h2 : ((l.map convertApy).filter (hardOk p)).length < 2
        · simp only [remove_outliers, if_neg h0, if_neg h1, if_pos h2]
        · simp only [remove_outliers, if_neg h0, if_neg h1, if_neg h2]
  · intro o
    by_cases hc : o.apy < 1 <;> simp [convertApy, hc]

/-- C7: when fewer than two opportunities survive the hard-threshold
pass (the sample standard deviation is then undefined and
`statistics.stdev` raises), `remove_outliers` skips the statistical
pass and returns the hard-threshold result unchanged; the model is a
total function, so no exception escapes. -/
theorem remove_outliers_degenerate_fallback (p : YieldDataProcessor)
    (l : List YieldOpportunity)
    (h : ((l.map convertApy).filter (hardOk p)).length < 2) :
    (remove_outliers p l).2 = (l.map convertApy).filter (hardOk p) := by
  by_cases h0 : l.isEmpty = true
  · rw [List.isEmpty_iff.mp h0]
    simp [remove_outliers]
  · by_cases h1 : ((l.map convertApy).filter (hardOk p)).isEmpty = true
    · simp only [remove_outliers, if_neg h0, if_pos h1]
      simp [List.isEmpty_iff.mp h1]
    · simp only [remove_outliers, if_neg h0, if_neg h1, if_pos h]

/-- C7 witness: a singleton input survives the hard pass alone and is
returned unchanged by the fallback. -/
theorem remove_outliers_degenerate_fallback_witness :
    (remove_outliers (mkProcessor 50)
        [{ protocol := "a", pool_id := "b", pair := "c", apy := 5, tvl := 20000,
           category := "other", tokens := [], il_risk := "no",
           audit_score := 1/2 }]).2 =
      ([{ protocol := "a", pool_id := "b", pair := "c", apy := 5, tvl := 20000,
          category := "other", tokens := [], il_risk := "no",
          audit_score := 1/2 }].map convertApy).filter (hardOk (mkProcessor 50)) :=
  remove_outliers_degenerate_fallback _ _
    (by norm_num [convertApy, hardOk, mkProcessor, List.filter, decide_eq_true_eq])

/-- C8: `calculate_risk_score` returns a `RiskAssessment` exactly when
`tvl ≥ 0` and `apy ≥ 0`; it fails with the input-validation error
precisely when `tvl < 0` or `apy < 0`, for every protocol string and
every optional 30-day mean. -/
theorem calculate_risk_score_ok_iff_nonneg (protocol : String)
    (tvl apy : ℚ) (m : Option ℚ) :
    (∃ r, calculate_risk_score protocol tvl apy m = Except.ok r) ↔
      0 ≤ tvl ∧ 0 ≤ apy := by
  unfold calculate_risk_score
  split
  next h =>
    constructor
    · rintro ⟨r, hr⟩
      exact absurd hr (by simp)
    · rintro ⟨h1, h2⟩
      rcases h with h | h <;> linarith
  next h =>
    push_neg at h
    exact ⟨fun _ => h, fun _ => ⟨_, rfl⟩⟩

/-- C9: for non-negative inputs the scorer returns
`overall = 0.3·tvl_score + 0.4·protocol_score + 0.3·apy_risk` with
`tvl_score = min(1, tvl/10_000_000)`, `apy_risk` given by the spec's
percentage-point buckets over the 30-day mean when supplied (else the
instantaneous APY), and `risk_level` given by the spec's 0.8/0.6/0.4
thresholds over `overall`. -/
theorem calculate_risk_score_formula (protocol : String) (tvl apy : ℚ)
    (m : Option ℚ) (h1 : 0 ≤ tvl) (h2 : 0 ≤ apy) :
    ∃ r, calculate_risk_score protocol tvl apy m = Except.ok r ∧
      r.overall = 0.3 * min 1 (tvl / 10000000) + 0.4 * get_protocol_score protocol
                  + 0.3 * spec_apy_risk (m.getD apy) ∧
      r.risk_level = spec_risk_level r.overall := by
  have hcond : ¬(tvl < 0 ∨ apy < 0) := by push_neg; exact ⟨h1, h2⟩
  simp only [calculate_risk_score, if_neg hcond]
  refine ⟨_, rfl, ?_, ?_⟩
  · simp only [spec_apy_risk]
    ring
  · rfl

/-- C9 witness: the formula evaluated for the orca protocol at
tvl 5,000,000 and apy 10 with no 30-day mean. -/
theorem calculate_risk_score_formula_witness :
    ∃ r, calculate_risk_score "orca" 5000000 10 none = Except.ok r ∧
      r.overall = 0.3 * min 1 ((5000000 : ℚ) / 10000000) +
                  0.4 * get_protocol_score "orca" +
                  0.3 * spec_apy_risk ((none : Option ℚ).getD 10) ∧
      r.risk_level = spec_risk_level r.overall :=
  calculate_risk_score_formula "orca" 5000000 10 none (by norm_num) (by norm_num)

/-- C10: the overall risk score is monotone in TVL — for fixed
protocol, optional 30-day mean and non-negative apy, and
`0 ≤ tvl1 ≤ tvl2`, the score computed at `tvl1` is at most the score
computed at `tvl2`. -/
theorem risk_score_monotone_in_tvl (protocol : String) (m : Option ℚ)
    (tvl1 tvl2 apy : ℚ) (h0 : 0 ≤ apy) (h1 : 0 ≤ tvl1) (h12 : tvl1 ≤ tvl2)
    (r1 r2 : RiskAssessment)
    (e1 : calculate_risk_score protocol tvl1 apy m = Except.ok r1)
    (e2 : calculate_risk_score protocol tvl2 apy m = Except.ok r2) :
    r1.overall ≤ r2.overall := by
  have hc1 : ¬(tvl1 < 0 ∨ apy < 0) := by push_neg; exact ⟨h1, h0⟩
  have hc2 : ¬(tvl2 < 0 ∨ apy < 0) := by push_neg; exact ⟨h1.trans h12, h0⟩
  simp only [calculate_risk_score, if_neg hc1, Except.ok.injEq] at e1
  simp only [calculate_risk_score, if_neg hc2, Except.ok.injEq] at e2
  subst e1
  subst e2
  simp only
  gcongr

/-- C10 witness: raising orca's TVL from 0 to 1,000,000 at apy 1 does
not decrease the overall score. -/
theorem risk_score_monotone_in_tvl_witness :
    ((⟨0.65, "Medium Risk", 0, 0.95, 0.9⟩ : RiskAssessment)).overall ≤
      ((⟨0.68, "Medium Risk", 0.1, 0.95, 0.9⟩ : RiskAssessment)).overall :=
  risk_score_monotone_in_tvl "orca" none 0 1000000 1 (by norm_num) (by norm_num)
    (by norm_num) _ _
    (by norm_num [calculate_risk_score, get_risk_level,
          show get_protocol_score "orca" = 0.95 from rfl])
    (by norm_num [calculate_risk_score, get_risk_level,
          show get_protocol_score "orca" = 0.95 from rfl])
